import Mathlib

/-!
# Verification of the readstat-rs callback assembly engine

Shallow embedding of `src/readstat/src/cb.rs`: the callback handlers
`handle_metadata`, `handle_variable` and `handle_value` that assemble a
row-major event stream from the native readstat parser into an Arrow
schema, per-column builders and record batches.

Modelling conventions:
* C machine integers (`c_int`, row/variable counts, indices) are `Int`.
* Rust panics (`unwrap` on `downcast_mut`, `RecordBatch::try_new`,
  `lexical::parse`, `Schema::try_merge`, slice indexing) are modelled as
  `Except.error` with a `Panic` tag; normal returns are `Except.ok`.
* An `f32`/`f64` value is represented by its shortest decimal string, the
  image of `lexical::to_string` on the machine float; `lexical::parse` of a
  plain decimal string is modelled as exact parsing into `Rat`.
* An Arrow array builder is a growable list of optional entries; `finish`
  hands out the accumulated entries and leaves the builder empty, which is
  the observable behaviour of `ArrayBuilder::finish` in arrow-rs.
* The sink side effect of `ReadStatData::write` is logged in the state:
  `written` records every batch handed to the sink, and the oracle list
  `sinkFailures` prescribes the success or failure of successive writes.
-/

namespace RS

deriving instance DecidableEq for Except

/-- `const DIGITS: usize = 14` from cb.rs. -/
def DIGITS : Nat := 14

/-- `const ROWS: usize = 100000` from cb.rs, the streaming chunk size. -/
def ROWS : Nat := 100000

/-- `const SEC_SHIFT: i64 = 315619200` from cb.rs (used only by the
commented-out date/time conversion code). -/
def SEC_SHIFT : Int := 315619200

/-- `const SEC_PER_HOUR: i64 = 86400` from cb.rs (used only by the
commented-out date/time conversion code). -/
def SEC_PER_HOUR : Int := 86400

/-- The `ReadStatHandler` return codes of cb.rs. -/
inductive ReadStatHandler
  | READSTAT_HANDLER_OK
  | READSTAT_HANDLER_ABORT
  | READSTAT_HANDLER_SKIP_VARIABLE
  deriving DecidableEq

/-- A Rust panic site reached by the handlers (an `unwrap` failure or an
out-of-bounds index). -/
inductive Panic
  | downcastFailed
  | indexOutOfBounds
  | recordBatchInvalid
  | parseFailed
  | schemaConflict
  deriving DecidableEq

/-- `ReadStatVarType` (rs.rs): the declared primitive type of a variable. -/
inductive ReadStatVarType
  | string
  | stringRef
  | int8
  | int16
  | int32
  | float
  | double
  | unknown
  deriving DecidableEq

/-- `ReadStatVarTypeClass` (rs.rs). -/
inductive ReadStatVarTypeClass
  | string
  | numeric
  deriving DecidableEq

/-- `ReadStatFormatClass` (rs.rs): classification of a display format. -/
inductive ReadStatFormatClass
  | date
  | dateTime
  | time
  deriving DecidableEq

/-- Modelled from the spec: the compression enum of the metadata
(spec section 3: none, row, binary, unknown); its defining code in
`src/readstat/src/rs.rs` is not among the sources.  cb.rs falls back to the
`none` variant when the native value is unrecognized. -/
inductive ReadStatCompress
  | none
  | row
  | binary
  | unknown
  deriving DecidableEq

/-- Modelled from the spec: the endianness enum of the metadata
(spec section 3: little, big, unknown); its defining code in
`src/readstat/src/rs.rs` is not among the sources.  cb.rs falls back to the
`none` variant when the native value is unrecognized. -/
inductive ReadStatEndian
  | none
  | little
  | big
  deriving DecidableEq

/-- The subset of Arrow `DataType` used by cb.rs. -/
inductive DataType
  | utf8
  | int8
  | int16
  | int32
  | float32
  | float64
  deriving DecidableEq

/-- An Arrow schema field: `Field::new(&var_name, var_dt, true)`. -/
structure Field where
  name : String
  dataType : DataType
  nullable : Bool
  deriving DecidableEq

/-- An Arrow array builder / finished array: the accumulated optional
entries, tagged by the concrete builder type used by cb.rs.  `none` entries
are nulls appended through `append_null`. -/
inductive ColData
  | str (entries : List (Option String))
  | i8 (entries : List (Option Int))
  | i16 (entries : List (Option Int))
  | i32 (entries : List (Option Int))
  | f32 (entries : List (Option Rat))
  | f64 (entries : List (Option Rat))
  deriving DecidableEq

/-- The Arrow data type of a builder or finished array. -/
def ColData.dataType : ColData → DataType
  | .str _ => .utf8
  | .i8 _ => .int8
  | .i16 _ => .int16
  | .i32 _ => .int32
  | .f32 _ => .float32
  | .f64 _ => .float64

/-- Number of entries (values and nulls) in a builder or array. -/
def ColData.length : ColData → Nat
  | .str es => es.length
  | .i8 es => es.length
  | .i16 es => es.length
  | .i32 es => es.length
  | .f32 es => es.length
  | .f64 es => es.length

/-- `ArrayBuilder::finish` leaves the builder empty; this is the builder's
state right after a finish. -/
def ColData.emptied : ColData → ColData
  | .str _ => .str []
  | .i8 _ => .i8 []
  | .i16 _ => .i16 []
  | .i32 _ => .i32 []
  | .f32 _ => .f32 []
  | .f64 _ => .f64 []

/-- An Arrow `RecordBatch`: a schema together with one finished column
array per field. -/
structure Batch where
  schema : List Field
  columns : List ColData
  deriving DecidableEq

/-- `RecordBatch::num_rows`: the length of the first column (0 if there are
no columns). -/
def Batch.num_rows (b : Batch) : Nat :=
  (b.columns.map ColData.length).headD 0

/-- `RecordBatch::try_new(schema, columns)`: fails unless there is at least
one column, the column count matches the field count, every column's data
type matches its field's data type, and all columns have equal length. -/
def recordBatchTryNew (schema : List Field) (columns : List ColData) :
    Option Batch :=
  if columns ≠ [] ∧ columns.length = schema.length ∧
      ((schema.zip columns).all fun p => p.1.dataType == p.2.dataType) ∧
      (columns.all fun c =>
        c.length == (columns.headD (ColData.str [])).length) then
    some { schema := schema, columns := columns }
  else
    none

/-- Arrow `Field::try_merge` for two same-named fields: data types must
agree; nullability is or-ed. -/
def fieldTryMerge (f g : Field) : Option Field :=
  if f.dataType = g.dataType then
    some { f with nullable := f.nullable || g.nullable }
  else
    none

/-- Arrow `Schema::try_merge` of an existing schema with a one-field
schema: if a field of the same name exists it is merged in place (error on
a conflicting data type), otherwise the field is appended. -/
def schemaTryMergeOne (fields : List Field) (g : Field) : Option (List Field) :=
  match fields with
  | [] => some [g]
  | f :: rest =>
    if f.name = g.name then
      match fieldTryMerge f g with
      | some m => some (m :: rest)
      | none => none
    else
      match schemaTryMergeOne rest g with
      | some rest2 => some (f :: rest2)
      | none => none

/-- `ReadStatVarMetadata` (rs.rs): per-variable metadata stored in the
`vars` map. -/
structure ReadStatVarMetadata where
  var_type : ReadStatVarType
  var_type_class : ReadStatVarTypeClass
  var_label : String
  var_format : String
  var_format_class : Option ReadStatFormatClass
  deriving DecidableEq

/-- `BTreeMap<(c_int, String), _>` insertion: the entry list is kept sorted
by the (index, name) key and an equal key is replaced. -/
def btreeInsert (m : List ((Int × String) × ReadStatVarMetadata))
    (k : Int × String) (v : ReadStatVarMetadata) :
    List ((Int × String) × ReadStatVarMetadata) :=
  match m with
  | [] => [(k, v)]
  | (k2, v2) :: rest =>
    if k.1 < k2.1 ∨ (k.1 = k2.1 ∧ k.2 < k2.2) then
      (k, v) :: (k2, v2) :: rest
    else if k = k2 then
      (k, v) :: rest
    else
      (k2, v2) :: btreeInsert rest k v

/-- `Reader` (lib.rs): the two flush policies, bounded streaming and full
buffering. -/
inductive Reader
  | stream
  | mem
  deriving DecidableEq

/-- The mutable session state `ReadStatData` threaded through the
callbacks.  The fields through `endianness` mirror the metadata fields set
by `handle_metadata`; `written` and `sinkFailures` are the sink log and
oracle described in the module docstring. -/
structure ReadStatData where
  row_count : Int
  var_count : Int
  table_name : String
  file_label : String
  file_encoding : String
  version : Int
  is64bit : Int
  creation_time : String
  modified_time : String
  compression : ReadStatCompress
  endianness : ReadStatEndian
  reader : Reader
  vars : List ((Int × String) × ReadStatVarMetadata)
  schema : List Field
  cols : List ColData
  batch : Batch
  written : List Batch
  sinkFailures : List Bool
  deriving DecidableEq

/-- A fresh session state, given the configured flush policy. -/
def initData (r : Reader) : ReadStatData where
  row_count := 0
  var_count := 0
  table_name := ""
  file_label := ""
  file_encoding := ""
  version := 0
  is64bit := 0
  creation_time := ""
  modified_time := ""
  compression := ReadStatCompress.none
  endianness := ReadStatEndian.none
  reader := r
  vars := []
  schema := []
  cols := []
  batch := { schema := [], columns := [] }
  written := []
  sinkFailures := []

/-- Modelled from the spec: `ReadStatData::write` lives in
`src/readstat/src/rs.rs`, which is not among the sources.  Per the Sink
contract (spec sections 4.5 and 6) it hands the finished batch to the sink
and reports success or failure; in full-buffer mode the single batch is
assembled from the schema and the accumulated columns, while in streaming
mode cb.rs has already assembled `d.batch` before calling `write`.  The
model logs every batch handed to the sink in `written` and draws each
call's success or failure from the head of the `sinkFailures` oracle. -/
def ReadStatData.write (d : ReadStatData) : Except Unit Unit × ReadStatData :=
  let b : Batch :=
    match d.reader with
    | Reader.stream => d.batch
    | Reader.mem => { schema := d.schema, columns := d.cols }
  let fail := d.sinkFailures.headD false
  let d2 := { d with
    written := d.written ++ [b]
    sinkFailures := d.sinkFailures.tail }
  (if fail then Except.error () else Except.ok (), d2)

/-! ## Event payloads delivered by the native parser -/

/-- The payload of a `readstat_value_t`.  A machine float is represented by
its shortest decimal string (the image of `lexical::to_string`). -/
inductive RawValue
  | rStr (s : String)
  | rInt (n : Int)
  | rFloat (s : String)
  deriving DecidableEq

/-- The `readstat_type_t` tag reported by `readstat_value_type`. -/
inductive ReadStatType
  | tString
  | tStringRef
  | tInt8
  | tInt16
  | tInt32
  | tFloat
  | tDouble
  deriving DecidableEq

/-- `readstat_string_value`: reads the string payload (unspecified on a
non-string payload). -/
def readstat_string_value : RawValue → String
  | RawValue.rStr s => s
  | _ => ""

/-- `readstat_int8_value` (unspecified on a non-integer payload). -/
def readstat_int8_value : RawValue → Int
  | RawValue.rInt n => n
  | _ => 0

/-- `readstat_int16_value` (unspecified on a non-integer payload). -/
def readstat_int16_value : RawValue → Int
  | RawValue.rInt n => n
  | _ => 0

/-- `readstat_int32_value` (unspecified on a non-integer payload). -/
def readstat_int32_value : RawValue → Int
  | RawValue.rInt n => n
  | _ => 0

/-- `readstat_float_value`, as the decimal string `lexical::to_string`
would produce for the float (unspecified on a non-float payload). -/
def readstat_float_value : RawValue → String
  | RawValue.rFloat s => s
  | _ => "0"

/-- `readstat_double_value`, as the decimal string `lexical::to_string`
would produce for the double (unspecified on a non-float payload). -/
def readstat_double_value : RawValue → String
  | RawValue.rFloat s => s
  | _ => "0"

/-- The metadata event consumed by `handle_metadata`: the values the
handler extracts from `readstat_metadata_t` (timestamps already rendered to
their calendar strings, enums already decoded with the cb.rs fallbacks). -/
structure MetadataEvent where
  row_count : Int
  var_count : Int
  table_name : String
  file_label : String
  file_encoding : String
  version : Int
  is64bit : Int
  creation_time : String
  modified_time : String
  compression : ReadStatCompress
  endianness : ReadStatEndian
  deriving DecidableEq

/-- A variable-declaration event consumed by `handle_variable`: the values
the handler extracts from `readstat_variable_t`. -/
structure VariableEvent where
  index : Int
  var_type : ReadStatVarType
  var_type_class : ReadStatVarTypeClass
  var_name : String
  var_label : String
  var_format : String
  deriving DecidableEq

/-- A value event consumed by `handle_value`: observation index, the
variable's index, the value's reported type, the system-missing flag
(`c_int`, 0 = present) and the payload. -/
structure ValueEvent where
  obs_index : Int
  var_index : Int
  value_type : ReadStatType
  is_missing : Int
  value : RawValue
  deriving DecidableEq

/-! ## Numeric string handling -/

/-- Rust `format!("{1:.0$}", n, s)` with a `String` argument: the precision
bounds the number of characters kept, so the string is truncated to at most
`n` characters. -/
def truncPrec (n : Nat) (s : String) : String :=
  String.mk (s.data.take n)

/-- Digit list to natural number. -/
def digitsToNat (l : List Char) : Nat :=
  l.foldl (fun acc c => acc * 10 + (c.toNat - 48)) 0

/-- `lexical::parse` on a plain decimal string (optional sign, integer
part, optional fractional part), modelled as exact parsing into `Rat`;
`none` models a parse error (whose `unwrap` in cb.rs panics). -/
def parseDec (s : String) : Option Rat :=
  let cs := s.data
  let neg := cs.headD ' ' = '-'
  let cs2 := if neg then cs.tail else cs
  let ip := cs2.takeWhile Char.isDigit
  let rest := cs2.dropWhile Char.isDigit
  let frac? : Option (List Char) :=
    match rest with
    | [] => some []
    | '.' :: fs => if fs.all Char.isDigit then some fs else none
    | _ => none
  match frac? with
  | none => none
  | some fs =>
    if ip.isEmpty && fs.isEmpty then
      none
    else
      let num : Int := Int.ofNat (digitsToNat (ip ++ fs))
      let q : Rat := mkRat num (10 ^ fs.length)
      some (if neg then -q else q)

/-- Spec-side reading of the normalization in spec section 4.3: keep the
first `n` significant digits of a decimal string (sign, decimal point and
leading zeros are not significant), dropping the rest. -/
def sigDigitsTakeAux : List Char → Nat → Bool → List Char
  | [], _, _ => []
  | c :: cs, k, seen =>
    if c = '-' ∨ c = '.' then
      c :: sigDigitsTakeAux cs k seen
    else if c = '0' ∧ ¬seen then
      c :: sigDigitsTakeAux cs k seen
    else if k = 0 then
      []
    else
      c :: sigDigitsTakeAux cs (k - 1) true

/-- Spec-side reading: format a decimal string to at most `n` significant
digits. -/
def sigDigitsTake (n : Nat) (s : String) : String :=
  ⟨sigDigitsTakeAux s.data n false⟩

/-! ## Modelled format classifier -/

/-- Modelled from the spec: `formats::match_var_format` lives in
`src/readstat/src/formats.rs`, which is not among the sources.  Per spec
section 4.1 it is a total pure classifier from the raw display-format
string to an optional date/time class, via a static table of known format
names matched exactly or as a leading pattern of the input; unrecognized
input maps to `none`.  The table below is a representative instance of
that contract. -/
def match_var_format (f : String) : Option ReadStatFormatClass :=
  if ["DATETIME"].any (fun p => f.startsWith p) then
    some ReadStatFormatClass.dateTime
  else if ["TIME"].any (fun p => f.startsWith p) then
    some ReadStatFormatClass.time
  else if ["DATE", "DDMMYY", "MMDDYY", "YYMMDD"].any (fun p => f.startsWith p) then
    some ReadStatFormatClass.date
  else
    none

/-! ## The callback handlers of cb.rs -/

/-- `handle_metadata` (cb.rs): copies the file-level metadata into the
session state, allocates the column vector (`Vec::with_capacity(vc)`, i.e.
empty) and returns `READSTAT_HANDLER_OK`. -/
def handle_metadata (ev : MetadataEvent) (d : ReadStatData) :
    Except Panic (ReadStatData × ReadStatHandler) :=
  Except.ok
    ({ d with
        row_count := ev.row_count
        var_count := ev.var_count
        table_name := ev.table_name
        file_label := ev.file_label
        file_encoding := ev.file_encoding
        version := ev.version
        is64bit := ev.is64bit
        creation_time := ev.creation_time
        modified_time := ev.modified_time
        compression := ev.compression
        endianness := ev.endianness
        cols := [] },
      ReadStatHandler.READSTAT_HANDLER_OK)

/-- The `let var_dt = match &var_type ...` of `handle_variable` (cb.rs
lines 208-216): the schema data type for a declared primitive type. -/
def varDataTypeOf : ReadStatVarType → DataType
  | ReadStatVarType.string | ReadStatVarType.stringRef
  | ReadStatVarType.unknown => DataType.utf8
  | ReadStatVarType.int8 | ReadStatVarType.int16 => DataType.int16
  | ReadStatVarType.int32 => DataType.int32
  | ReadStatVarType.float => DataType.float32
  | ReadStatVarType.double => DataType.float64

/-- The `let array: Box<dyn ArrayBuilder> = match &var_type ...` of
`handle_variable` (cb.rs lines 231-240): the freshly allocated builder for
a declared primitive type (note the `Int8Builder` for int8).  The capacity
hint `min(ROWS, row_count as usize)` has no observable effect and is
omitted. -/
def newBuilderOf : ReadStatVarType → ColData
  | ReadStatVarType.string | ReadStatVarType.stringRef
  | ReadStatVarType.unknown => ColData.str []
  | ReadStatVarType.int8 => ColData.i8 []
  | ReadStatVarType.int16 => ColData.i16 []
  | ReadStatVarType.int32 => ColData.i32 []
  | ReadStatVarType.float => ColData.f32 []
  | ReadStatVarType.double => ColData.f64 []

/-- `handle_variable` (cb.rs): records the variable metadata in the
`vars` map, appends a field to the schema through `Schema::try_merge`
(data type given by `varDataTypeOf`), pushes a fresh builder for the
variable (given by `newBuilderOf`), and returns `READSTAT_HANDLER_OK`.
A conflicting redeclaration makes the `try_merge` `unwrap` panic. -/
def handle_variable (ev : VariableEvent) (d : ReadStatData) :
    Except Panic (ReadStatData × ReadStatHandler) :=
  match schemaTryMergeOne d.schema
      { name := ev.var_name, dataType := varDataTypeOf ev.var_type,
        nullable := true } with
  | none => Except.error Panic.schemaConflict
  | some schema2 =>
    Except.ok
      ({ d with
          vars := btreeInsert d.vars (ev.index, ev.var_name)
            { var_type := ev.var_type
              var_type_class := ev.var_type_class
              var_label := ev.var_label
              var_format := ev.var_format
              var_format_class := match_var_format ev.var_format }
          schema := schema2
          cols := d.cols ++ [newBuilderOf ev.var_type] },
        ReadStatHandler.READSTAT_HANDLER_OK)

/-- `d.cols[var_index as usize]`: `none` models the index panic (a
negative `c_int` cast to `usize` is out of bounds). -/
def getCol (d : ReadStatData) (i : Int) : Option ColData :=
  if i < 0 then none else d.cols.get? i.toNat

/-- Store an updated builder back at `var_index`. -/
def setColList (cs : List ColData) (i : Int) (c : ColData) : List ColData :=
  cs.set i.toNat c

/-- The value-appending phase of `handle_value` (cb.rs lines 275-359): the
match on `readstat_value_type`, the per-type accessor, the float/double
format-truncate-reparse normalization, the `downcast_mut::<...>().unwrap()`
on the builder at `var_index`, and the `append_value`/`append_null` choice
on `is_missing`.  It yields the updated column vector. -/
def appendPhaseCols (ev : ValueEvent) (d : ReadStatData) :
    Except Panic (List ColData) :=
  match ev.value_type with
  | ReadStatType.tString | ReadStatType.tStringRef =>
    let value := readstat_string_value ev.value
    match getCol d ev.var_index with
    | some (ColData.str es) =>
      Except.ok (setColList d.cols ev.var_index
        (ColData.str (if ev.is_missing = 0 then es ++ [some value] else es ++ [none])))
    | some _ => Except.error Panic.downcastFailed
    | none => Except.error Panic.indexOutOfBounds
  | ReadStatType.tInt8 =>
    let value := readstat_int8_value ev.value
    match getCol d ev.var_index with
    | some (ColData.i8 es) =>
      Except.ok (setColList d.cols ev.var_index
        (ColData.i8 (if ev.is_missing = 0 then es ++ [some value] else es ++ [none])))
    | some _ => Except.error Panic.downcastFailed
    | none => Except.error Panic.indexOutOfBounds
  | ReadStatType.tInt16 =>
    let value := readstat_int16_value ev.value
    match getCol d ev.var_index with
    | some (ColData.i16 es) =>
      Except.ok (setColList d.cols ev.var_index
        (ColData.i16 (if ev.is_missing = 0 then es ++ [some value] else es ++ [none])))
    | some _ => Except.error Panic.downcastFailed
    | none => Except.error Panic.indexOutOfBounds
  | ReadStatType.tInt32 =>
    let value := readstat_int32_value ev.value
    match getCol d ev.var_index with
    | some (ColData.i32 es) =>
      Except.ok (setColList d.cols ev.var_index
        (ColData.i32 (if ev.is_missing = 0 then es ++ [some value] else es ++ [none])))
    | some _ => Except.error Panic.downcastFailed
    | none => Except.error Panic.indexOutOfBounds
  | ReadStatType.tFloat =>
    let s := readstat_float_value ev.value
    match parseDec (truncPrec DIGITS s) with
    | none => Except.error Panic.parseFailed
    | some q =>
      match getCol d ev.var_index with
      | some (ColData.f32 es) =>
        Except.ok (setColList d.cols ev.var_index
          (ColData.f32 (if ev.is_missing = 0 then es ++ [some q] else es ++ [none])))
      | some _ => Except.error Panic.downcastFailed
      | none => Except.error Panic.indexOutOfBounds
  | ReadStatType.tDouble =>
    let s := readstat_double_value ev.value
    match parseDec (truncPrec DIGITS s) with
    | none => Except.error Panic.parseFailed
    | some q =>
      match getCol d ev.var_index with
      | some (ColData.f64 es) =>
        Except.ok (setColList d.cols ev.var_index
          (ColData.f64 (if ev.is_missing = 0 then es ++ [some q] else es ++ [none])))
      | some _ => Except.error Panic.downcastFailed
      | none => Except.error Panic.indexOutOfBounds

/-- The value-appending phase, as a state transformer: only `cols` is
touched. -/
def appendPhase (ev : ValueEvent) (d : ReadStatData) :
    Except Panic ReadStatData :=
  (appendPhaseCols ev d).map fun cs => { d with cols := cs }

/-- The flush phase of `handle_value` (cb.rs lines 411-458): when the event
closes a row (`var_index == var_count - 1`), streaming mode flushes if
`(obs_index + 1) % ROWS == 0 && obs_index != 0` or `obs_index ==
row_count - 1` (finish every builder, `RecordBatch::try_new` whose `unwrap`
panics on failure, then `write` with any error swallowed); full-buffer mode
calls `write` only at `obs_index == row_count - 1`. -/
def flushPhase (ev : ValueEvent) (d : ReadStatData) :
    Except Panic ReadStatData :=
  if ev.var_index = d.var_count - 1 then
    match d.reader with
    | Reader.stream =>
      if ((ev.obs_index + 1) % (ROWS : Int) = 0 ∧ ev.obs_index ≠ 0) ∨
          ev.obs_index = d.row_count - 1 then
        let arrays : List ColData := d.cols
        let emptied := d.cols.map ColData.emptied
        match recordBatchTryNew d.schema arrays with
        | none => Except.error Panic.recordBatchInvalid
        | some b =>
          Except.ok (ReadStatData.write { d with cols := emptied, batch := b }).2
      else
        Except.ok d
    | Reader.mem =>
      if ev.obs_index = d.row_count - 1 then
        Except.ok (ReadStatData.write d).2
      else
        Except.ok d
  else
    Except.ok d

/-- `handle_value` (cb.rs): append the value or null, evaluate the flush
policy, and return `READSTAT_HANDLER_OK`. -/
def handle_value (ev : ValueEvent) (d : ReadStatData) :
    Except Panic (ReadStatData × ReadStatHandler) :=
  match appendPhase ev d with
  | Except.error p => Except.error p
  | Except.ok d2 =>
    match flushPhase ev d2 with
    | Except.error p => Except.error p
    | Except.ok d3 => Except.ok (d3, ReadStatHandler.READSTAT_HANDLER_OK)

/-! ## Event-stream drivers (the external parser's call protocol) -/

/-- Deliver variable-declaration events in order; the parser keeps calling
only while the handler returns `READSTAT_HANDLER_OK`. -/
def processVariables : List VariableEvent → ReadStatData →
    Except Panic ReadStatData
  | [], d => Except.ok d
  | ev :: evs, d =>
    match handle_variable ev d with
    | Except.error p => Except.error p
    | Except.ok (d2, ReadStatHandler.READSTAT_HANDLER_OK) =>
      processVariables evs d2
    | Except.ok (d2, _) => Except.ok d2

/-- Deliver value events in order; the parser keeps calling only while the
handler returns `READSTAT_HANDLER_OK`. -/
def processValues : List ValueEvent → ReadStatData →
    Except Panic ReadStatData
  | [], d => Except.ok d
  | ev :: evs, d =>
    match handle_value ev d with
    | Except.error p => Except.error p
    | Except.ok (d2, ReadStatHandler.READSTAT_HANDLER_OK) =>
      processValues evs d2
    | Except.ok (d2, _) => Except.ok d2

/-- A whole parse run: one metadata event, the variable declarations, then
the value events, starting from a fresh session state. -/
def runFile (mev : MetadataEvent) (vevs : List VariableEvent)
    (vals : List ValueEvent) (d : ReadStatData) :
    Except Panic ReadStatData :=
  match handle_metadata mev d with
  | Except.error p => Except.error p
  | Except.ok (d1, _) =>
    match processVariables vevs d1 with
    | Except.error p => Except.error p
    | Except.ok d2 => processValues vals d2

/-! ## Spec-side definitions (transcribed from the spec's words, for
comparison against the code) -/

/-- The documented semantic type mapping of spec section 4.2: string,
string-ref and unknown map to text; int8 and int16 to 16-bit integer;
int32 to 32-bit integer; float to 32-bit float; double to 64-bit float. -/
def specTypeOf : ReadStatVarType → DataType
  | ReadStatVarType.string => DataType.utf8
  | ReadStatVarType.stringRef => DataType.utf8
  | ReadStatVarType.unknown => DataType.utf8
  | ReadStatVarType.int8 => DataType.int16
  | ReadStatVarType.int16 => DataType.int16
  | ReadStatVarType.int32 => DataType.int32
  | ReadStatVarType.float => DataType.float32
  | ReadStatVarType.double => DataType.float64

/-- The schema field the spec's mapping predicts for a declaration. -/
def specFieldOf (ev : VariableEvent) : Field :=
  { name := ev.var_name, dataType := specTypeOf ev.var_type, nullable := true }

/-- Whether a value event's reported type matches the builder the code
would downcast to (the source contract of spec section 6). -/
def kindMatches : ReadStatType → ColData → Bool
  | ReadStatType.tString, ColData.str _ => true
  | ReadStatType.tStringRef, ColData.str _ => true
  | ReadStatType.tInt8, ColData.i8 _ => true
  | ReadStatType.tInt16, ColData.i16 _ => true
  | ReadStatType.tInt32, ColData.i32 _ => true
  | ReadStatType.tFloat, ColData.f32 _ => true
  | ReadStatType.tDouble, ColData.f64 _ => true
  | _, _ => false

/-- Append a null entry to a builder, whatever its type. -/
def appendNullCol : ColData → ColData
  | ColData.str es => ColData.str (es ++ [none])
  | ColData.i8 es => ColData.i8 (es ++ [none])
  | ColData.i16 es => ColData.i16 (es ++ [none])
  | ColData.i32 es => ColData.i32 (es ++ [none])
  | ColData.f32 es => ColData.f32 (es ++ [none])
  | ColData.f64 es => ColData.f64 (es ++ [none])

/-- For float and double events cb.rs parses the truncated decimal string
before looking at `is_missing`; this records that the parse succeeds. -/
def floatParseOk (ev : ValueEvent) : Bool :=
  match ev.value_type with
  | ReadStatType.tFloat =>
    (parseDec (truncPrec DIGITS (readstat_float_value ev.value))).isSome
  | ReadStatType.tDouble =>
    (parseDec (truncPrec DIGITS (readstat_double_value ev.value))).isSome
  | _ => true

/-! ## Concrete scenarios used by the claims -/

/-- A metadata event with the given row count, a single variable, and
empty optional metadata. -/
def oneVarMeta (rc : Int) : MetadataEvent :=
  { row_count := rc, var_count := 1, table_name := "", file_label := ""
    file_encoding := "", version := 0, is64bit := 0, creation_time := ""
    modified_time := "", compression := ReadStatCompress.none
    endianness := ReadStatEndian.none }

/-- Declaration of a single int32 variable named "v". -/
def int32Var : VariableEvent :=
  { index := 0, var_type := ReadStatVarType.int32
    var_type_class := ReadStatVarTypeClass.numeric
    var_name := "v", var_label := "", var_format := "" }

/-- The schema of a file with the single int32 variable "v". -/
def oneVarSchema : List Field :=
  [{ name := "v", dataType := DataType.int32, nullable := true }]

/-- The session state right after metadata and the single int32
declaration for a streaming parse of `rc` rows. -/
def oneVarState (r : Reader) (rc : Int) : ReadStatData :=
  { initData r with
      row_count := rc
      var_count := 1
      vars := [((0, "v"),
        { var_type := ReadStatVarType.int32
          var_type_class := ReadStatVarTypeClass.numeric
          var_label := "", var_format := "", var_format_class := none })]
      schema := oneVarSchema
      cols := [ColData.i32 []] }

/-- The `k`-th value event of the 250001-row single-int32-column stream of
the claim: row `k`, column 0, value 7, not missing. -/
def c2Event (k : Nat) : ValueEvent :=
  { obs_index := (k : Int), var_index := 0
    value_type := ReadStatType.tInt32, is_missing := 0
    value := RawValue.rInt 7 }

/-- A full streaming chunk of the 250001-row scenario: 100000 int32
entries of value 7. -/
def c2Full : Batch :=
  { schema := oneVarSchema
    columns := [ColData.i32 (List.replicate ROWS (some 7))] }

/-- The final partial batch of the 250001-row scenario: the 50001
remaining rows. -/
def c2Last : Batch :=
  { schema := oneVarSchema
    columns := [ColData.i32 (List.replicate 50001 (some 7))] }

/-- The session state of the 250001-row scenario after `k` complete rows,
for `k ≤ 250000`: the column buffer holds `k % 100000` entries, `k /
100000` full chunks have been flushed, and `batch` still holds its initial
value until the first flush. -/
def c2State (k : Nat) : ReadStatData :=
  { oneVarState Reader.stream 250001 with
      cols := [ColData.i32 (List.replicate (k % ROWS) (some 7))]
      written := List.replicate (k / ROWS) c2Full
      batch := if k < ROWS then (initData Reader.stream).batch else c2Full }

/-- The session state of the 250001-row scenario after all 250001 rows:
two full chunks and the final 50001-row batch have been flushed. -/
def c2FinalState : ReadStatData :=
  { oneVarState Reader.stream 250001 with
      cols := [ColData.i32 []]
      written := [c2Full, c2Full, c2Last]
      batch := c2Last }

/-- One driver step of the 250001-row scenario: deliver row `k`'s value
event to the state, propagating panics. -/
def c2StepE (k : Nat) (e : Except Panic ReadStatData) :
    Except Panic ReadStatData :=
  match e with
  | Except.error p => Except.error p
  | Except.ok d =>
    match handle_value (c2Event k) d with
    | Except.error p => Except.error p
    | Except.ok (d2, _) => Except.ok d2

/-- The 250001-row single-int32-column streaming run after `k` rows. -/
def c2Run : Nat → Except Panic ReadStatData
  | 0 => Except.ok (oneVarState Reader.stream 250001)
  | k + 1 => c2StepE k (c2Run k)

/-- Declaration of a single int8 variable named "x" (the C4/C9
scenario). -/
def int8Var : VariableEvent :=
  { index := 0, var_type := ReadStatVarType.int8
    var_type_class := ReadStatVarTypeClass.numeric
    var_name := "x", var_label := "", var_format := "" }

/-- A single non-missing int8 value event for row 0, column 0. -/
def int8Val : ValueEvent :=
  { obs_index := 0, var_index := 0, value_type := ReadStatType.tInt8
    is_missing := 0, value := RawValue.rInt 5 }

/-- The C3 scenario's value events: a 3-row, 1-column int32 stream whose
second row is missing. -/
def c3Vals : List ValueEvent :=
  [{ obs_index := 0, var_index := 0, value_type := ReadStatType.tInt32
     is_missing := 0, value := RawValue.rInt 10 },
   { obs_index := 1, var_index := 0, value_type := ReadStatType.tInt32
     is_missing := 1, value := RawValue.rInt 0 },
   { obs_index := 2, var_index := 0, value_type := ReadStatType.tInt32
     is_missing := 0, value := RawValue.rInt 30 }]

/-- The C5 scenario's incoming double, as its shortest decimal
representation: 17 significant digits. -/
def c5Str : String := "-0.123456789012345"

/-- A metadata event declaring two variables and no rows (the C1
duplicate-name scenario). -/
def twoVarMeta : MetadataEvent :=
  { row_count := 0, var_count := 2, table_name := "", file_label := ""
    file_encoding := "", version := 0, is64bit := 0, creation_time := ""
    modified_time := "", compression := ReadStatCompress.none
    endianness := ReadStatEndian.none }

/-- Declaration of an int32 variable named "x" at the given index (used
twice in the C1 duplicate-name scenario). -/
def dupNameVar (i : Int) : VariableEvent :=
  { index := i, var_type := ReadStatVarType.int32
    var_type_class := ReadStatVarTypeClass.numeric
    var_name := "x", var_label := "", var_format := "" }

/-! ## Helper lemmas -/

/-- The value-appending phase touches only the column buffers: every other
field of the session state is unchanged. -/
theorem appendPhase_ok_proj (ev : ValueEvent) (d d2 : ReadStatData)
    (h : appendPhase ev d = Except.ok d2) :
    d2.row_count = d.row_count ∧ d2.var_count = d.var_count ∧
    d2.reader = d.reader ∧ d2.schema = d.schema ∧ d2.batch = d.batch ∧
    d2.written = d.written ∧ d2.sinkFailures = d.sinkFailures := by
  cases hc : appendPhaseCols ev d with
  | error p =>
    rw [appendPhase, hc] at h
    simp [Except.map] at h
  | ok cs =>
    rw [appendPhase, hc] at h
    simp only [Except.map, Except.ok.injEq] at h
    subst h
    exact ⟨rfl, rfl, rfl, rfl, rfl, rfl, rfl⟩

/-! ## C8 — abort propagation -/

/-- C8 counterexample: at a concrete fatal-error input (a source-contract
violation: an int8-typed value event delivered for an int32 column, making
the `downcast_mut::<Int8Builder>().unwrap()` fail) `handle_value` does not
return `READSTAT_HANDLER_ABORT`; it panics and never returns any status at
all. -/
theorem c8_fatal_error_panics_instead_of_abort :
    handle_value int8Val (oneVarState Reader.stream 1) =
      Except.error Panic.downcastFailed := by
  decide

/-- C8 amended: the handlers never return an abort status.  Every normal
return of `handle_metadata`, `handle_variable` and `handle_value` carries
`READSTAT_HANDLER_OK`; fatal errors instead surface as panics
(`Except.error`), so the parser is never stopped through
`READSTAT_HANDLER_ABORT`. -/
theorem c8_handlers_only_return_ok (mev : MetadataEvent) (vev : VariableEvent)
    (ev : ValueEvent) (d : ReadStatData) (p1 p2 p3 : ReadStatData × ReadStatHandler) :
    (handle_metadata mev d = Except.ok p1 →
      p1.2 = ReadStatHandler.READSTAT_HANDLER_OK) ∧
    (handle_variable vev d = Except.ok p2 →
      p2.2 = ReadStatHandler.READSTAT_HANDLER_OK) ∧
    (handle_value ev d = Except.ok p3 →
      p3.2 = ReadStatHandler.READSTAT_HANDLER_OK) := by
  refine ⟨fun h => ?_, fun h => ?_, fun h => ?_⟩
  · rw [handle_metadata] at h
    injection h with h
    subst h
    rfl
  · unfold handle_variable at h
    split at h
    · exact absurd h (by simp)
    · injection h with h
      subst h
      rfl
  · unfold handle_value at h
    split at h
    · exact absurd h (by simp)
    · split at h
      · exact absurd h (by simp)
      · injection h with h
        subst h
        rfl

/-- C8 witness: the amended theorem applied at a concrete value event on a
3-row int32 full-buffer session. -/
theorem c8_handlers_only_return_ok_witness :
    handle_value (c3Vals.headD int8Val) (oneVarState Reader.mem 3) =
      Except.ok
        ({ oneVarState Reader.mem 3 with cols := [ColData.i32 [some 10]] },
          ReadStatHandler.READSTAT_HANDLER_OK) ∧
    ({ oneVarState Reader.mem 3 with cols := [ColData.i32 [some 10]] },
        ReadStatHandler.READSTAT_HANDLER_OK).2 =
      ReadStatHandler.READSTAT_HANDLER_OK := by
  refine ⟨by decide, ?_⟩
  exact (c8_handlers_only_return_ok (oneVarMeta 3) int32Var
    (c3Vals.headD int8Val) (oneVarState Reader.mem 3)
    ({ oneVarState Reader.mem 3 with cols := [ColData.i32 [some 10]] },
      ReadStatHandler.READSTAT_HANDLER_OK)
    ({ oneVarState Reader.mem 3 with cols := [ColData.i32 [some 10]] },
      ReadStatHandler.READSTAT_HANDLER_OK) _).2.2 (by decide)

/-! ## C4 — per-column entry conservation -/

/-- C4: the conservation property fails on a conforming stream because of
a code bug.  A one-row streaming file with a single int8 variable obeys
every source-ordering and typing precondition, yet the first flush panics:
`handle_variable` declared the schema field as Int16 but allocated an
`Int8Builder`, so the finished Int8 array does not match the schema and
`RecordBatch::try_new(...).unwrap()` fails.  No batch is emitted, and the
column's entry total is 0, not the declared row_count of 1. -/
theorem c4_int8_stream_flush_panics :
    runFile (oneVarMeta 1) [int8Var] [int8Val] (initData Reader.stream) =
      Except.error Panic.recordBatchInvalid := by
  decide

/-! ## C10 — unbounded row-count hint in full-buffer mode -/

/-- C10: in full-buffer (mem) mode with a non-positive declared row count,
`handle_value` never invokes the sink write: the final-row test
`obs_index == row_count - 1` is false for every non-negative observation
index, so the sink log and the sink oracle are untouched. -/
theorem c10_mem_nonpositive_rowcount_never_writes
    (ev : ValueEvent) (d d' : ReadStatData) (r : ReadStatHandler)
    (hmem : d.reader = Reader.mem) (hrc : d.row_count ≤ 0)
    (hobs : 0 ≤ ev.obs_index)
    (h : handle_value ev d = Except.ok (d', r)) :
    d'.written = d.written ∧ d'.sinkFailures = d.sinkFailures := by
  unfold handle_value at h
  cases ha : appendPhase ev d with
  | error p => rw [ha] at h; exact absurd h (by simp)
  | ok d2 =>
    obtain ⟨hrc2, hvc2, hrd2, hsch2, hb2, hw2, hsf2⟩ :=
      appendPhase_ok_proj ev d d2 ha
    have hflush : flushPhase ev d2 = Except.ok d2 := by
      unfold flushPhase
      by_cases hv : ev.var_index = d2.var_count - 1
      · have hno : ¬ ev.obs_index = d2.row_count - 1 := by
          rw [hrc2]; omega
        rw [hrd2, hmem]
        simp [hv, hno]
      · simp [hv]
    rw [ha] at h
    simp only [hflush, Except.ok.injEq, Prod.mk.injEq] at h
    obtain ⟨h1, _⟩ := h
    subst h1
    exact ⟨hw2, hsf2⟩

/-- C10 witness: the theorem applied to a value event at observation 0 of
a mem-mode session whose declared row count is 0. -/
theorem c10_mem_nonpositive_rowcount_never_writes_witness :
    (oneVarState Reader.mem 0).reader = Reader.mem ∧
    (oneVarState Reader.mem 0).row_count ≤ 0 ∧
    ({ oneVarState Reader.mem 0 with
        cols := [ColData.i32 [some 5]] }.written =
      (oneVarState Reader.mem 0).written) := by
  refine ⟨rfl, by decide, ?_⟩
  exact (c10_mem_nonpositive_rowcount_never_writes
    { obs_index := 0, var_index := 0, value_type := ReadStatType.tInt32,
      is_missing := 0, value := RawValue.rInt 5 }
    (oneVarState Reader.mem 0)
    { oneVarState Reader.mem 0 with cols := [ColData.i32 [some 5]] }
    ReadStatHandler.READSTAT_HANDLER_OK
    rfl (by decide) (by decide) (by decide)).1

/-! ## C3 — missing values become nulls -/

/-- Helper: for any value event flagged missing whose reported type matches
the builder at `var_index` (and whose float payload parses, since cb.rs
parses before testing missingness), the appending phase appends exactly one
null to that builder, whatever its type. -/
theorem appendPhase_missing_appends_null
    (ev : ValueEvent) (d : ReadStatData) (col : ColData)
    (hget : getCol d ev.var_index = some col)
    (hk : kindMatches ev.value_type col = true)
    (hp : floatParseOk ev = true)
    (hm : ev.is_missing ≠ 0) :
    appendPhase ev d =
      Except.ok { d with
        cols := setColList d.cols ev.var_index (appendNullCol col) } := by
  unfold floatParseOk at hp
  unfold appendPhase appendPhaseCols
  cases hvt : ev.value_type <;> cases col <;>
      (try simp only [hvt, kindMatches, Bool.false_eq_true] at hk) <;>
      (try simp [hget, hm, appendNullCol, Except.map])
  case tFloat.f32 es =>
    simp only [hvt] at hp
    cases hq : parseDec (truncPrec DIGITS (readstat_float_value ev.value)) with
    | none => rw [hq] at hp; simp at hp
    | some q => simp [hq, hget, hm, appendNullCol, Except.map]
  case tDouble.f64 es =>
    simp only [hvt] at hp
    cases hq : parseDec (truncPrec DIGITS (readstat_double_value ev.value)) with
    | none => rw [hq] at hp; simp at hp
    | some q => simp [hq, hget, hm, appendNullCol, Except.map]

/-- C3: a value event flagged missing is appended as a null to the column
at its `var_index`, whatever the column's declared type (first conjunct,
for every matching event/builder pair), and a non-missing event appends
the typed value, as in the claim's example: the 3-row, 1-column int32
full-buffer run whose second row is missing produces the column
[10, null, 30] (second conjunct). -/
theorem c3_missing_value_appends_null :
    (∀ (ev : ValueEvent) (d : ReadStatData) (col : ColData),
      getCol d ev.var_index = some col →
      kindMatches ev.value_type col = true →
      floatParseOk ev = true →
      ev.is_missing ≠ 0 →
      appendPhase ev d =
        Except.ok { d with
          cols := setColList d.cols ev.var_index (appendNullCol col) }) ∧
    (runFile (oneVarMeta 3) [int32Var] c3Vals (initData Reader.mem)).map
        (fun d => d.written.map Batch.columns) =
      Except.ok [[ColData.i32 [some 10, none, some 30]]] := by
  exact ⟨appendPhase_missing_appends_null, by decide⟩

/-- C3 witness: the theorem's first conjunct applied to the concrete
missing event of the example at row 1. -/
theorem c3_missing_value_appends_null_witness :
    appendPhase (c3Vals.getD 1 int8Val)
        { oneVarState Reader.mem 3 with cols := [ColData.i32 [some 10]] } =
      Except.ok { oneVarState Reader.mem 3 with
        cols := [ColData.i32 [some 10, none]] } := by
  have h := c3_missing_value_appends_null.1 (c3Vals.getD 1 int8Val)
    { oneVarState Reader.mem 3 with cols := [ColData.i32 [some 10]] }
    (ColData.i32 [some 10]) (by decide) (by decide) (by decide) (by decide)
  exact h.trans (by decide)

/-! ## C9 — int8 schema/builder mismatch -/

/-- Helper: merging a field whose name is fresh appends it to the
schema. -/
theorem schemaTryMergeOne_fresh (fields : List Field) (g : Field)
    (h : g.name ∉ fields.map Field.name) :
    schemaTryMergeOne fields g = some (fields ++ [g]) := by
  induction fields with
  | nil => rfl
  | cons f rest ih =>
    simp only [List.map_cons, List.mem_cons] at h
    push_neg at h
    obtain ⟨h1, h2⟩ := h
    rw [schemaTryMergeOne, if_neg (fun he => h1 he.symm), ih h2]
    simp

/-- C9: for a variable declared int8 (with a name not already in the
schema), `handle_variable` appends an Int16 field to the schema but pushes
an `Int8Builder` (first conjunct); an Int8 array never has the Int16 data
type of its schema field (second conjunct); and `handle_value` routes a
non-missing int8 value event through the Int8 builder (third conjunct). -/
theorem c9_int8_schema_and_builder_disagree
    (d : ReadStatData) (ev : VariableEvent)
    (hty : ev.var_type = ReadStatVarType.int8)
    (hfresh : ev.var_name ∉ d.schema.map Field.name) :
    (handle_variable ev d =
      Except.ok
        ({ d with
            vars := btreeInsert d.vars (ev.index, ev.var_name)
              { var_type := ev.var_type
                var_type_class := ev.var_type_class
                var_label := ev.var_label
                var_format := ev.var_format
                var_format_class := match_var_format ev.var_format }
            schema := d.schema ++
              [{ name := ev.var_name, dataType := DataType.int16,
                 nullable := true }]
            cols := d.cols ++ [ColData.i8 []] },
          ReadStatHandler.READSTAT_HANDLER_OK)) ∧
    (∀ es : List (Option Int), (ColData.i8 es).dataType ≠ DataType.int16) ∧
    (∀ (ev2 : ValueEvent) (d2 : ReadStatData) (es : List (Option Int)),
      ev2.value_type = ReadStatType.tInt8 →
      getCol d2 ev2.var_index = some (ColData.i8 es) →
      ev2.is_missing = 0 →
      appendPhase ev2 d2 =
        Except.ok { d2 with
          cols := setColList d2.cols ev2.var_index
            (ColData.i8 (es ++ [some (readstat_int8_value ev2.value)])) }) := by
  refine ⟨?_, ?_, ?_⟩
  · unfold handle_variable
    rw [hty]
    rw [schemaTryMergeOne_fresh d.schema
      { name := ev.var_name, dataType := varDataTypeOf ReadStatVarType.int8,
        nullable := true } hfresh]
    rfl
  · intro es
    simp [ColData.dataType]
  · intro ev2 d2 es hvt hget hm
    unfold appendPhase appendPhaseCols
    simp [hvt, hget, hm, Except.map]

/-- C9 witness: the theorem applied to the concrete int8 declaration "x"
on a fresh streaming session, and to a concrete int8 value event. -/
theorem c9_int8_schema_and_builder_disagree_witness :
    (handle_variable int8Var (initData Reader.stream) =
      Except.ok
        ({ initData Reader.stream with
            vars := [((0, "x"),
              { var_type := ReadStatVarType.int8
                var_type_class := ReadStatVarTypeClass.numeric
                var_label := "", var_format := ""
                var_format_class := none })]
            schema := [{ name := "x", dataType := DataType.int16,
                         nullable := true }]
            cols := [ColData.i8 []] },
          ReadStatHandler.READSTAT_HANDLER_OK)) ∧
    (ColData.i8 [some 5]).dataType ≠ DataType.int16 := by
  constructor
  · exact ((c9_int8_schema_and_builder_disagree (initData Reader.stream)
      int8Var rfl (by decide)).1).trans (by decide)
  · exact (c9_int8_schema_and_builder_disagree (initData Reader.stream)
      int8Var rfl (by decide)).2.1 [some 5]

/-! ## C5 — float/double normalization -/

/-- C5 counterexample: for the incoming double written "-0.123456789012345"
the code stores the reparse of the first 14 characters of that string,
"-0.12345678901" (11 significant digits), which differs from the reparse
of its 14-significant-digit representation "-0.12345678901234": the
claim's normalization is character truncation, not significant-digit
formatting. -/
theorem c5_fourteen_chars_not_fourteen_significant_digits :
    appendPhase
        { obs_index := 0, var_index := 0,
          value_type := ReadStatType.tDouble, is_missing := 0,
          value := RawValue.rFloat c5Str }
        { initData Reader.mem with
            row_count := 1, var_count := 1, cols := [ColData.f64 []] } =
      Except.ok { initData Reader.mem with
        row_count := 1, var_count := 1,
        cols := [ColData.f64 [some (mkRat (-12345678901) (10 ^ 11))]] } ∧
    truncPrec DIGITS c5Str = "-0.12345678901" ∧
    sigDigitsTake DIGITS c5Str = "-0.12345678901234" ∧
    parseDec (truncPrec DIGITS c5Str) ≠ parseDec (sigDigitsTake DIGITS c5Str) := by
  exact ⟨by decide, by decide, by decide, by decide⟩

/-- C5 amended: for every non-missing double (resp. float) value event,
the value stored in the column buffer is the result of truncating the
incoming value's decimal representation to at most 14 characters (sign and
decimal point included) and reparsing it — the `format!("{1:.0$}", DIGITS,
lexical::to_string(value))` round trip of cb.rs.  The normalization is a
fixed pure function of the incoming representation, hence stable across
repeated runs. -/
theorem c5_normalization_truncates_to_14_characters :
    (∀ (ev : ValueEvent) (d : ReadStatData) (es : List (Option Rat)) (q : Rat),
      ev.value_type = ReadStatType.tDouble →
      getCol d ev.var_index = some (ColData.f64 es) →
      ev.is_missing = 0 →
      parseDec (truncPrec DIGITS (readstat_double_value ev.value)) = some q →
      appendPhase ev d =
        Except.ok { d with
          cols := setColList d.cols ev.var_index
            (ColData.f64 (es ++ [some q])) }) ∧
    (∀ (ev : ValueEvent) (d : ReadStatData) (es : List (Option Rat)) (q : Rat),
      ev.value_type = ReadStatType.tFloat →
      getCol d ev.var_index = some (ColData.f32 es) →
      ev.is_missing = 0 →
      parseDec (truncPrec DIGITS (readstat_float_value ev.value)) = some q →
      appendPhase ev d =
        Except.ok { d with
          cols := setColList d.cols ev.var_index
            (ColData.f32 (es ++ [some q])) }) := by
  constructor <;>
    (intro ev d es q hvt hget hm hq
     unfold appendPhase appendPhaseCols
     simp [hvt, hq, hget, hm, Except.map])

/-- C5 witness: the amended theorem applied to the incoming double "1.5"
(unchanged by 14-character truncation), stored as 3/2. -/
theorem c5_normalization_truncates_to_14_characters_witness :
    appendPhase
        { obs_index := 0, var_index := 0,
          value_type := ReadStatType.tDouble, is_missing := 0,
          value := RawValue.rFloat "1.5" }
        { initData Reader.mem with
            row_count := 1, var_count := 1, cols := [ColData.f64 []] } =
      Except.ok { initData Reader.mem with
        row_count := 1, var_count := 1,
        cols := [ColData.f64 [some (mkRat 3 2)]] } := by
  have h := c5_normalization_truncates_to_14_characters.1
    { obs_index := 0, var_index := 0,
      value_type := ReadStatType.tDouble, is_missing := 0,
      value := RawValue.rFloat "1.5" }
    { initData Reader.mem with
        row_count := 1, var_count := 1, cols := [ColData.f64 []] }
    [] (mkRat 3 2) rfl (by decide) rfl (by decide)
  exact h.trans (by decide)

/-! ## C6 and C7 — streaming flush and sink failures -/

/-- Helper: the exact result of a streaming flush.  When the appended
event closes a row and the flush condition holds, `handle_value` finishes
every builder (leaving them all empty), assembles the batch from the
schema and the finished arrays, hands it to the sink (consuming one sink
oracle entry, whatever its outcome), and returns `READSTAT_HANDLER_OK`. -/
theorem handle_value_stream_flush
    (ev : ValueEvent) (d d1 : ReadStatData) (b : Batch)
    (hstream : d.reader = Reader.stream)
    (happend : appendPhase ev d = Except.ok d1)
    (hlast : ev.var_index = d.var_count - 1)
    (hcond : ((ev.obs_index + 1) % (ROWS : Int) = 0 ∧ ev.obs_index ≠ 0) ∨
      ev.obs_index = d.row_count - 1)
    (htry : recordBatchTryNew d1.schema d1.cols = some b) :
    handle_value ev d =
      Except.ok
        ({ d1 with
            cols := d1.cols.map ColData.emptied
            batch := b
            written := d1.written ++ [b]
            sinkFailures := d1.sinkFailures.tail },
          ReadStatHandler.READSTAT_HANDLER_OK) := by
  obtain ⟨hrc2, hvc2, hrd2, hsch2, hb2, hw2, hsf2⟩ :=
    appendPhase_ok_proj ev d d1 happend
  have hlast1 : ev.var_index = d1.var_count - 1 := by rw [hvc2]; exact hlast
  have hcond1 : ((ev.obs_index + 1) % (ROWS : Int) = 0 ∧ ev.obs_index ≠ 0) ∨
      ev.obs_index = d1.row_count - 1 := by rw [hrc2]; exact hcond
  have hrd1 : d1.reader = Reader.stream := hrd2.trans hstream
  have hflush : flushPhase ev d1 =
      Except.ok { d1 with
        cols := d1.cols.map ColData.emptied
        batch := b
        written := d1.written ++ [b]
        sinkFailures := d1.sinkFailures.tail } := by
    unfold flushPhase
    rw [if_pos hlast1, hrd1]
    simp only [if_pos hcond1, htry, ReadStatData.write, hrd1]
  unfold handle_value
  rw [happend]
  simp only [hflush]

/-- C6: in bounded-streaming mode, every flush finishes every column
buffer (the builders are all left empty, i.e. fresh accumulators for the
next batch), assembles a batch from the schema and the finished arrays,
and passes it to the sink. -/
theorem c6_flush_finishes_assembles_writes_replaces
    (ev : ValueEvent) (d d1 : ReadStatData) (b : Batch)
    (hstream : d.reader = Reader.stream)
    (happend : appendPhase ev d = Except.ok d1)
    (hlast : ev.var_index = d.var_count - 1)
    (hcond : ((ev.obs_index + 1) % (ROWS : Int) = 0 ∧ ev.obs_index ≠ 0) ∨
      ev.obs_index = d.row_count - 1)
    (htry : recordBatchTryNew d1.schema d1.cols = some b) :
    handle_value ev d =
      Except.ok
        ({ d1 with
            cols := d1.cols.map ColData.emptied
            batch := b
            written := d1.written ++ [b]
            sinkFailures := d1.sinkFailures.tail },
          ReadStatHandler.READSTAT_HANDLER_OK) :=
  handle_value_stream_flush ev d d1 b hstream happend hlast hcond htry

/-- C6 witness: the theorem applied to the final (and only) row of a
one-row streaming int32 file. -/
theorem c6_flush_finishes_assembles_writes_replaces_witness :
    handle_value
        { obs_index := 0, var_index := 0,
          value_type := ReadStatType.tInt32, is_missing := 0,
          value := RawValue.rInt 7 }
        (oneVarState Reader.stream 1) =
      Except.ok
        ({ oneVarState Reader.stream 1 with
            cols := [ColData.i32 []]
            batch := { schema := oneVarSchema,
                       columns := [ColData.i32 [some 7]] }
            written := [{ schema := oneVarSchema,
                          columns := [ColData.i32 [some 7]] }] },
          ReadStatHandler.READSTAT_HANDLER_OK) := by
  have h := c6_flush_finishes_assembles_writes_replaces
    { obs_index := 0, var_index := 0,
      value_type := ReadStatType.tInt32, is_missing := 0,
      value := RawValue.rInt 7 }
    (oneVarState Reader.stream 1)
    { oneVarState Reader.stream 1 with cols := [ColData.i32 [some 7]] }
    { schema := oneVarSchema, columns := [ColData.i32 [some 7]] }
    rfl (by decide) (by decide) (Or.inr (by decide)) (by decide)
  exact h.trans (by decide)

/-- C7: a sink write failure is absorbed.  When the next sink outcome is a
failure, the flushing `handle_value` still returns `READSTAT_HANDLER_OK`
(so the parse is not aborted) and leaves the session in exactly the state
it would continue from: batch handed over, builders replaced, only the
failure consumed from the sink oracle. -/
theorem c7_sink_write_failure_absorbed
    (ev : ValueEvent) (d d1 : ReadStatData) (b : Batch) (rest : List Bool)
    (hstream : d.reader = Reader.stream)
    (happend : appendPhase ev d = Except.ok d1)
    (hlast : ev.var_index = d.var_count - 1)
    (hcond : ((ev.obs_index + 1) % (ROWS : Int) = 0 ∧ ev.obs_index ≠ 0) ∨
      ev.obs_index = d.row_count - 1)
    (htry : recordBatchTryNew d1.schema d1.cols = some b)
    (hfail : d1.sinkFailures = true :: rest) :
    handle_value ev d =
      Except.ok
        ({ d1 with
            cols := d1.cols.map ColData.emptied
            batch := b
            written := d1.written ++ [b]
            sinkFailures := rest },
          ReadStatHandler.READSTAT_HANDLER_OK) := by
  have h := handle_value_stream_flush ev d d1 b hstream happend hlast hcond htry
  rw [hfail] at h
  exact h

/-- C7 witness: the theorem applied to a one-row streaming int32 file
whose single sink write fails. -/
theorem c7_sink_write_failure_absorbed_witness :
    handle_value
        { obs_index := 0, var_index := 0,
          value_type := ReadStatType.tInt32, is_missing := 0,
          value := RawValue.rInt 7 }
        { oneVarState Reader.stream 1 with sinkFailures := [true] } =
      Except.ok
        ({ oneVarState Reader.stream 1 with
            cols := [ColData.i32 []]
            batch := { schema := oneVarSchema,
                       columns := [ColData.i32 [some 7]] }
            written := [{ schema := oneVarSchema,
                          columns := [ColData.i32 [some 7]] }]
            sinkFailures := [] },
          ReadStatHandler.READSTAT_HANDLER_OK) := by
  have h := c7_sink_write_failure_absorbed
    { obs_index := 0, var_index := 0,
      value_type := ReadStatType.tInt32, is_missing := 0,
      value := RawValue.rInt 7 }
    { oneVarState Reader.stream 1 with sinkFailures := [true] }
    { oneVarState Reader.stream 1 with
        cols := [ColData.i32 [some 7]], sinkFailures := [true] }
    { schema := oneVarSchema, columns := [ColData.i32 [some 7]] }
    [] rfl (by decide) (by decide) (Or.inr (by decide)) (by decide) (by decide)
  exact h.trans (by decide)

/-! ## C1 — schema building -/

/-- Helper: the code's declaration-to-schema mapping agrees with the
spec's documented mapping. -/
theorem varDataTypeOf_eq_spec (t : ReadStatVarType) :
    varDataTypeOf t = specTypeOf t := by
  cases t <;> rfl

/-- Helper: folding the declarations over a state whose schema names and
the declared names are jointly distinct appends one field per declaration,
in order, with the documented data type. -/
theorem processVariables_schema (evs : List VariableEvent) :
    ∀ d : ReadStatData,
      (d.schema.map Field.name ++ evs.map VariableEvent.var_name).Nodup →
      (processVariables evs d).map ReadStatData.schema =
        Except.ok (d.schema ++ evs.map specFieldOf) := by
  induction evs with
  | nil =>
    intro d h
    simp [processVariables, Except.map]
  | cons ev rest ih =>
    intro d h
    rw [List.nodup_append] at h
    obtain ⟨hA, hxB, hdisj⟩ := h
    have hfresh : ev.var_name ∉ d.schema.map Field.name := by
      intro hmem
      exact hdisj hmem (by simp)
    rw [processVariables]
    unfold handle_variable
    rw [schemaTryMergeOne_fresh d.schema
      { name := ev.var_name, dataType := varDataTypeOf ev.var_type,
        nullable := true } hfresh]
    have hih := ih
      { d with
          vars := btreeInsert d.vars (ev.index, ev.var_name)
            { var_type := ev.var_type
              var_type_class := ev.var_type_class
              var_label := ev.var_label
              var_format := ev.var_format
              var_format_class := match_var_format ev.var_format }
          schema := d.schema ++
            [{ name := ev.var_name, dataType := varDataTypeOf ev.var_type,
               nullable := true }]
          cols := d.cols ++ [newBuilderOf ev.var_type] }
      (by
        simp only [List.map_append, List.map_cons, List.map_nil]
        rw [List.append_assoc]
        rw [List.nodup_append]
        refine ⟨hA, ?_, ?_⟩
        · simpa using hxB
        · intro a ha
          have := hdisj ha
          simpa using this)
    simp only [hih]
    rw [varDataTypeOf_eq_spec]
    simp [specFieldOf]

/-- C1 counterexample: two int32 declarations both named "x" satisfy the
claim's premises (two variable-declaration events processed by
`handle_variable`), yet after the two declarations the schema has 1 field,
not var_count = 2: `Schema::try_merge` merges the identically-typed
same-named field instead of appending (while a second column builder is
still pushed). -/
theorem c1_duplicate_names_collapse_schema :
    (runFile twoVarMeta [dupNameVar 0, dupNameVar 1] []
        (initData Reader.mem)).map
        (fun d => (d.schema.length, d.cols.length)) =
      Except.ok (1, 2) ∧ (1 : Nat) ≠ 2 := by
  exact ⟨by decide, by decide⟩

/-- C1 amended: provided the declared variable names are pairwise
distinct, after the declarations the schema has exactly one field per
declaration, in declaration order, and field i's type is the documented
mapping (`specTypeOf`, transcribed from the spec) of declared primitive
type i. -/
theorem c1_schema_fields_follow_documented_mapping
    (evs : List VariableEvent) (d : ReadStatData)
    (hempty : d.schema = [])
    (hnodup : (evs.map VariableEvent.var_name).Nodup) :
    (processVariables evs d).map ReadStatData.schema =
      Except.ok (evs.map specFieldOf) := by
  have h := processVariables_schema evs d (by rw [hempty]; simpa)
  rw [hempty] at h
  simpa using h

/-- C1 witness: the amended theorem applied to the two distinct
declarations "a" (double) and "b" (int8): the schema gets Float64 then
Int16, in order. -/
theorem c1_schema_fields_follow_documented_mapping_witness :
    (processVariables
        [{ index := 0, var_type := ReadStatVarType.double
           var_type_class := ReadStatVarTypeClass.numeric
           var_name := "a", var_label := "", var_format := "" },
         { index := 1, var_type := ReadStatVarType.int8
           var_type_class := ReadStatVarTypeClass.numeric
           var_name := "b", var_label := "", var_format := "" }]
        (initData Reader.mem)).map ReadStatData.schema =
      Except.ok
        [{ name := "a", dataType := DataType.float64, nullable := true },
         { name := "b", dataType := DataType.int16, nullable := true }] := by
  have h := c1_schema_fields_follow_documented_mapping
    [{ index := 0, var_type := ReadStatVarType.double
       var_type_class := ReadStatVarTypeClass.numeric
       var_name := "a", var_label := "", var_format := "" },
     { index := 1, var_type := ReadStatVarType.int8
       var_type_class := ReadStatVarTypeClass.numeric
       var_name := "b", var_label := "", var_format := "" }]
    (initData Reader.mem) rfl (by decide)
  exact h.trans (by decide)

/-! ## C2 — streaming flush boundaries -/

/-- Helper: a single int32 column always assembles against the
single-int32-field schema. -/
theorem tryNew_oneVar_i32 (l : List (Option Int)) :
    recordBatchTryNew oneVarSchema [ColData.i32 l] =
      some { schema := oneVarSchema, columns := [ColData.i32 l] } := by
  simp [recordBatchTryNew, oneVarSchema, ColData.dataType, ColData.length]

/-- Helper: the state of the 250001-row scenario is reached from a fresh
streaming session by the metadata and declaration events. -/
theorem c2_init_reachable :
    runFile (oneVarMeta 250001) [int32Var] [] (initData Reader.stream) =
      Except.ok (oneVarState Reader.stream 250001) := by
  decide

/-- Helper: the appending phase of row `k` of the 250001-row scenario. -/
theorem c2_append_step (k : Nat) :
    appendPhase (c2Event k) (c2State k) =
      Except.ok { c2State k with
        cols := [ColData.i32
          (List.replicate (k % ROWS) (some 7) ++ [some 7])] } := by
  unfold appendPhase appendPhaseCols
  simp [c2Event, c2State, oneVarState, initData, getCol, setColList,
    Except.map, readstat_int32_value]

/-- Helper: in streaming mode, when the flush condition fails the state
after `handle_value` is exactly the appended state. -/
theorem handle_value_stream_no_flush
    (ev : ValueEvent) (d d1 : ReadStatData)
    (hstream : d.reader = Reader.stream)
    (happend : appendPhase ev d = Except.ok d1)
    (hnc : ¬ (((ev.obs_index + 1) % (ROWS : Int) = 0 ∧ ev.obs_index ≠ 0) ∨
      ev.obs_index = d.row_count - 1)) :
    handle_value ev d =
      Except.ok (d1, ReadStatHandler.READSTAT_HANDLER_OK) := by
  obtain ⟨hrc2, hvc2, hrd2, _, _, _, _⟩ := appendPhase_ok_proj ev d d1 happend
  have hrd1 : d1.reader = Reader.stream := hrd2.trans hstream
  have hflush : flushPhase ev d1 = Except.ok d1 := by
    unfold flushPhase
    by_cases hv : ev.var_index = d1.var_count - 1
    · rw [if_pos hv, hrd1]
      have hnc1 : ¬ (((ev.obs_index + 1) % (ROWS : Int) = 0 ∧
          ev.obs_index ≠ 0) ∨ ev.obs_index = d1.row_count - 1) := by
        rw [hrc2]
        exact hnc
      simp only [if_neg hnc1]
    · rw [if_neg hv]
  unfold handle_value
  rw [happend]
  simp only [hflush]

/-- Helper: one row of the 250001-row scenario, for every row before the
final one: the invariant state advances; the builder grows by one entry
and a full 100000-row chunk is flushed exactly at the chunk boundary. -/
theorem c2_step (k : Nat) (hk : k < 250000) :
    handle_value (c2Event k) (c2State k) =
      Except.ok (c2State (k + 1), ReadStatHandler.READSTAT_HANDLER_OK) := by
  have hR : ROWS = 100000 := rfl
  by_cases hmodz : (k + 1) % ROWS = 0
  · -- chunk boundary: flush
    have hmod : k % ROWS = 99999 := by rw [hR] at hmodz ⊢; omega
    have harr : List.replicate (k % ROWS) (some 7) ++
        [(some 7 : Option Int)] = List.replicate ROWS (some 7) := by
      rw [hmod, hR, ← List.replicate_succ']
    have happ := c2_append_step k
    rw [harr] at happ
    have hcond : (((c2Event k).obs_index + 1) % (ROWS : Int) = 0 ∧
        (c2Event k).obs_index ≠ 0) ∨
        (c2Event k).obs_index = (c2State k).row_count - 1 := by
      refine Or.inl ⟨?_, ?_⟩
      · show ((k : Int) + 1) % ((ROWS : Nat) : Int) = 0
        rw [hR] at hmodz ⊢
        omega
      · show (k : Int) ≠ 0
        rw [hR] at hmodz
        omega
    have h := handle_value_stream_flush (c2Event k) (c2State k)
      { c2State k with cols := [ColData.i32 (List.replicate ROWS (some 7))] }
      c2Full rfl happ (by show (0 : Int) = 1 - 1; decide) hcond
      (tryNew_oneVar_i32 _)
    rw [h]
    have e2 : (k + 1) / ROWS = k / ROWS + 1 := by rw [hR] at hmodz ⊢; omega
    have e3 : ¬ (k + 1 < ROWS) := by rw [hR] at hmodz ⊢; omega
    simp [c2State, oneVarState, initData, c2Full, hmodz, e2, e3,
      List.replicate_succ', ColData.emptied]
  · -- interior row: no flush
    have hnc : ¬ ((((c2Event k).obs_index + 1) % (ROWS : Int) = 0 ∧
        (c2Event k).obs_index ≠ 0) ∨
        (c2Event k).obs_index = (c2State k).row_count - 1) := by
      show ¬ ((((k : Int) + 1) % ((ROWS : Nat) : Int) = 0 ∧ (k : Int) ≠ 0) ∨
        (k : Int) = 250001 - 1)
      rw [hR] at hmodz ⊢
      rintro (⟨h1, h2⟩ | h3) <;> omega
    have h := handle_value_stream_no_flush (c2Event k) (c2State k)
      { c2State k with
        cols := [ColData.i32
          (List.replicate (k % ROWS) (some 7) ++ [some 7])] }
      rfl (c2_append_step k) hnc
    rw [h]
    have e1 : (k + 1) % ROWS = k % ROWS + 1 := by rw [hR] at hmodz ⊢; omega
    have e2 : (k + 1) / ROWS = k / ROWS := by rw [hR] at hmodz ⊢; omega
    have e3 : k + 1 < ROWS ↔ k < ROWS := by rw [hR] at hmodz ⊢; omega
    simp [c2State, oneVarState, initData, e1, e2, e3, List.replicate_succ']

/-- Helper: the final row (observation 250000) of the 250001-row scenario
flushes the remaining 50001-row partial batch. -/
theorem c2_step_last :
    handle_value (c2Event 250000) (c2State 250000) =
      Except.ok (c2FinalState, ReadStatHandler.READSTAT_HANDLER_OK) := by
  have happ := c2_append_step 250000
  have harr : List.replicate (250000 % ROWS) (some 7) ++
      [(some 7 : Option Int)] = List.replicate 50001 (some 7) := by
    have hm : (250000 : Nat) % ROWS = 50000 := by decide
    rw [hm, ← List.replicate_succ']
  rw [harr] at happ
  have hcond : (((c2Event 250000).obs_index + 1) % (ROWS : Int) = 0 ∧
      (c2Event 250000).obs_index ≠ 0) ∨
      (c2Event 250000).obs_index = (c2State 250000).row_count - 1 :=
    Or.inr (by show (250000 : Int) = 250001 - 1; decide)
  have h := handle_value_stream_flush (c2Event 250000) (c2State 250000)
    { c2State 250000 with
        cols := [ColData.i32 (List.replicate 50001 (some 7))] }
    c2Last rfl happ (by show (0 : Int) = 1 - 1; decide) hcond
    (tryNew_oneVar_i32 _)
  rw [h]
  rfl

/-- Helper: one driver step on a known state boils down to the handler's
result. -/
theorem c2StepE_ok (k : Nat) (d d2 : ReadStatData) (r : ReadStatHandler)
    (h : handle_value (c2Event k) d = Except.ok (d2, r)) :
    c2StepE k (Except.ok d) = Except.ok d2 := by
  unfold c2StepE
  simp only [h]

/-- Helper: the streaming invariant of the 250001-row scenario, for every
prefix of complete rows before the final flush. -/
theorem c2_run_inv (k : Nat) (hk : k ≤ 250000) :
    c2Run k = Except.ok (c2State k) := by
  induction k with
  | zero =>
    show Except.ok (oneVarState Reader.stream 250001) =
      Except.ok (c2State 0)
    rfl
  | succ n ih =>
    have h := ih (by omega)
    have e : c2Run (n + 1) = c2StepE n (c2Run n) := rfl
    rw [e, h]
    exact c2StepE_ok n (c2State n) (c2State (n + 1))
      ReadStatHandler.READSTAT_HANDLER_OK (c2_step n (by omega))

/-- Helper: the recursion equation of the scenario driver. -/
theorem c2Run_succ (k : Nat) : c2Run (k + 1) = c2StepE k (c2Run k) := rfl

/-- Helper: the complete 250001-row streaming run. -/
theorem c2_run_complete : c2Run 250001 = Except.ok c2FinalState := by
  have h := c2_run_inv 250000 (by omega)
  have e := c2Run_succ 250000
  norm_num at e
  rw [e, h]
  exact c2StepE_ok 250000 (c2State 250000) c2FinalState
    ReadStatHandler.READSTAT_HANDLER_OK c2_step_last

/-- Helper: the row counts of the three batches of the 250001-row run. -/
theorem c2_run_batch_sizes :
    (c2Run 250001).map (fun d => d.written.map Batch.num_rows) =
      Except.ok [100000, 100000, 50001] := by
  have hfull : Batch.num_rows c2Full = 100000 := by
    simp only [Batch.num_rows, c2Full, ColData.length, List.map_cons,
      List.map_nil, List.headD_cons, List.length_replicate, ROWS]
  have hlast : Batch.num_rows c2Last = 50001 := by
    simp only [Batch.num_rows, c2Last, ColData.length, List.map_cons,
      List.map_nil, List.headD_cons, List.length_replicate]
  rw [c2_run_complete]
  show Except.ok ((c2FinalState.written).map Batch.num_rows) =
    Except.ok [100000, 100000, 50001]
  rw [show c2FinalState.written = [c2Full, c2Full, c2Last] from rfl]
  rw [List.map_cons, List.map_cons, List.map_cons, List.map_nil, hfull,
    hlast]

/-- C2 counterexample: the claim's own concrete instance fails on the
code.  With chunk size 100000 and row_count 250001 the run produces
exactly 3 batches, but their sizes are [100000, 100000, 50001] — the
final batch holds the 50001 remaining rows, not 1. -/
theorem c2_batch_sizes_are_not_1 :
    (c2Run 250001).map (fun d => d.written.map Batch.num_rows) =
      Except.ok [100000, 100000, 50001] ∧
    [100000, 100000, 50001] ≠ [100000, 100000, (1 : Nat)] := by
  exact ⟨c2_run_batch_sizes, by decide⟩

/-- C2 amended: in bounded-streaming mode a flush happens exactly when a
row completes (`var_index = var_count - 1`) and either
`(obs_index + 1) % 100000 = 0` or `obs_index` is the file's last row
(first conjunct: the sink receives exactly one more batch iff that
condition holds; the code's extra `obs_index != 0` test is redundant);
with row_count = 250001 this produces exactly 3 batches of sizes
[100000, 100000, 50001] (second conjunct). -/
theorem c2_flush_rule_and_batch_sizes :
    (∀ (ev : ValueEvent) (d d' : ReadStatData) (r : ReadStatHandler),
      d.reader = Reader.stream →
      handle_value ev d = Except.ok (d', r) →
      (d'.written.length = d.written.length + 1 ↔
        (ev.var_index = d.var_count - 1 ∧
          ((ev.obs_index + 1) % (ROWS : Int) = 0 ∨
            ev.obs_index = d.row_count - 1)))) ∧
    (c2Run 250001).map (fun d => d.written.map Batch.num_rows) =
      Except.ok [100000, 100000, 50001] := by
  constructor
  · intro ev d d' r hstream h
    unfold handle_value at h
    cases ha : appendPhase ev d with
    | error p => rw [ha] at h; exact absurd h (by simp)
    | ok d1 =>
      obtain ⟨hrc2, hvc2, hrd2, _, hb2, hw2, hsf2⟩ :=
        appendPhase_ok_proj ev d d1 ha
      rw [ha] at h
      have hrd1 : d1.reader = Reader.stream := hrd2.trans hstream
      by_cases hv : ev.var_index = d1.var_count - 1
      · by_cases hcode : (((ev.obs_index + 1) % (ROWS : Int) = 0 ∧
            ev.obs_index ≠ 0) ∨ ev.obs_index = d1.row_count - 1)
        · cases htn : recordBatchTryNew d1.schema d1.cols with
          | none =>
            have hfl : flushPhase ev d1 =
                Except.error Panic.recordBatchInvalid := by
              unfold flushPhase
              rw [if_pos hv, hrd1]
              simp only [if_pos hcode, htn]
            simp only [hfl] at h
            exact absurd h (by simp)
          | some b =>
            have hfl : flushPhase ev d1 =
                Except.ok
                  { d1 with
                      cols := List.map ColData.emptied d1.cols
                      batch := b
                      written := d1.written ++ [b]
                      sinkFailures := d1.sinkFailures.tail } := by
              unfold flushPhase
              rw [if_pos hv, hrd1]
              simp only [if_pos hcode, htn, ReadStatData.write, hrd1]
            simp only [hfl, Except.ok.injEq, Prod.mk.injEq] at h
            obtain ⟨h1, _⟩ := h
            subst h1
            refine iff_of_true ?_ ?_
            · simp [hw2]
            · refine ⟨by rw [← hvc2]; exact hv, ?_⟩
              rcases hcode with ⟨h1, _⟩ | h1
              · exact Or.inl h1
              · exact Or.inr (by rw [← hrc2]; exact h1)
        · have hfl : flushPhase ev d1 = Except.ok d1 := by
            unfold flushPhase
            rw [if_pos hv, hrd1]
            simp only [if_neg hcode]
          simp only [hfl, Except.ok.injEq, Prod.mk.injEq] at h
          obtain ⟨h1, _⟩ := h
          subst h1
          refine iff_of_false ?_ ?_
          · simp [hw2]
          · rintro ⟨-, hm | hlastrow⟩
            · refine hcode (Or.inl ⟨hm, ?_⟩)
              intro h0
              rw [h0] at hm
              have hR : ROWS = 100000 := rfl
              rw [hR] at hm
              omega
            · exact hcode (Or.inr (by rw [hrc2]; exact hlastrow))
      · have hfl : flushPhase ev d1 = Except.ok d1 := by
          unfold flushPhase
          rw [if_neg hv]
        simp only [hfl, Except.ok.injEq, Prod.mk.injEq] at h
        obtain ⟨h1, _⟩ := h
        subst h1
        refine iff_of_false ?_ ?_
        · simp [hw2]
        · rintro ⟨hvar, -⟩
          exact hv (by rw [hvc2]; exact hvar)
  · exact c2_run_batch_sizes

/-- C2 witness: the flush rule applied to the final row of a one-row
streaming int32 file (a flush), and to row 0 of a three-row file (no
flush). -/
theorem c2_flush_rule_and_batch_sizes_witness :
    (({ oneVarState Reader.stream 1 with
        cols := [ColData.i32 []]
        batch := { schema := oneVarSchema, columns := [ColData.i32 [some 7]] }
        written := [{ schema := oneVarSchema,
                      columns := [ColData.i32 [some 7]] }] } :
      ReadStatData).written.length =
        (oneVarState Reader.stream 1).written.length + 1 ↔
      ((0 : Int) = (oneVarState Reader.stream 1).var_count - 1 ∧
        (((0 : Int) + 1) % (ROWS : Int) = 0 ∨
          (0 : Int) = (oneVarState Reader.stream 1).row_count - 1))) := by
  exact c2_flush_rule_and_batch_sizes.1
    { obs_index := 0, var_index := 0,
      value_type := ReadStatType.tInt32, is_missing := 0,
      value := RawValue.rInt 7 }
    (oneVarState Reader.stream 1)
    { oneVarState Reader.stream 1 with
        cols := [ColData.i32 []]
        batch := { schema := oneVarSchema, columns := [ColData.i32 [some 7]] }
        written := [{ schema := oneVarSchema,
                      columns := [ColData.i32 [some 7]] }] }
    ReadStatHandler.READSTAT_HANDLER_OK rfl (by decide)

end RS
